import Mathlib

/-!
Shallow embedding of the braiinspool-matrix-bot sources (src/util.rs, src/db.rs,
src/bot/mod.rs) and proofs about the specified behaviour.

Conventions of the embedding:
* Rust `usize`/`u64` arithmetic is modelled on `Nat` with an explicit `% 2 ^ 64`
  at the operations where 64-bit overflow matters (release-profile wrapping
  semantics); a Rust panic (out-of-range slice, division by zero) is modelled
  by returning `none`.
* Rust `f64` values are idealised as exact rationals (`Rat`); the claims under
  study never depend on IEEE rounding.
* Fallible store/remote calls return `Except`-values; external collaborators
  (the rocksdb engine, the pool HTTP client, the matrix transport) are modelled
  at their interface boundary as oracles supplied to the dispatcher.
-/

namespace BraiinsBot

/-! ### String helpers

`splitChar` is the embedding of Rust `str::split(sep)` for a one-character
separator: it always yields at least one (possibly empty) piece, and adjacent
separators yield empty pieces.  Used by the dispatcher (`msg_body.split(' ')`,
bot/mod.rs:142) and the worker-name rendering (`name.split('.')`,
bot/mod.rs:213). -/
def splitChar (sep : Char) : List Char → List (List Char)
  | [] => [[]]
  | c :: rest =>
    if c = sep then [] :: splitChar sep rest
    else
      match splitChar sep rest with
      | [] => [[c]]
      | g :: gs => (c :: g) :: gs

theorem splitChar_ne_nil (sep : Char) (s : List Char) : splitChar sep s ≠ [] := by
  induction s with
  | nil => simp [splitChar]
  | cons c rest ih =>
    simp only [splitChar]
    split
    · simp
    · split
      · simp
      · simp

/-! ### util.rs: number formatting

`format_number` (util.rs:22-60) renders a `usize` in decimal with `,` every
three digits.  The group count is computed with `usize::pow(1000, counter)`,
which wraps modulo `2 ^ 64` (release profile); when the wrapped values corrupt
the count, the subsequent string slice `number[0..len - counter*3]` is out of
range and the function panics (modelled as `none`).  The divisor can even wrap
to `0` (at counter = 22), a division-by-zero panic in every profile. -/

/-- Decimal digit characters of `n`, most significant first, by structural
recursion on a fuel bound (64 digits covers every 64-bit value).
Embeds Rust `usize::to_string` (util.rs:23). -/
def decCharsAux : Nat → Nat → List Char
  | 0, _ => []
  | fuel + 1, n => if n = 0 then [] else decCharsAux fuel (n / 10) ++ [Nat.digitChar (n % 10)]

def decChars (n : Nat) : List Char :=
  if n = 0 then ['0'] else decCharsAux 64 n

/-- `usize::pow(1000, c)` with 64-bit wrapping (util.rs:29). -/
def wrapPow1000 (c : Nat) : Nat := (1000 ^ c) % (2 ^ 64)

/-- The counter-search loop of util.rs:28-34: smallest `c ≥ start` with
`num / (1000 ^ c wrapped) = 0`; `none` models the division-by-zero panic when
the wrapped power reaches `0`.  Fuel 30 is enough: the divisor wraps to zero at
`c = 22` at the latest. -/
def counterLoop (num : Nat) : Nat → Nat → Option Nat
  | _, 0 => none
  | c, fuel + 1 =>
    let d := wrapPow1000 c
    if d = 0 then none
    else if 0 < num / d then counterLoop num (c + 1) fuel
    else some c

/-- The group-collection loop of util.rs:43-54: take `c` chunks of three
characters.  (The source's `!number[0..3].is_empty()` guard is vacuous: a
three-character slice is never empty.) -/
def takeGroups : Nat → List Char → List (List Char)
  | 0, _ => []
  | c + 1, rest => rest.take 3 :: takeGroups c (rest.drop 3)

/-- `Vec<String>::join(",")` of util.rs:56. -/
def joinComma (l : List (List Char)) : List Char := (l.intersperse [',']).flatten

/-- Embedding of `format_number` (util.rs:22-60) at the character-list level.
`none` models a panic. -/
def formatNumberChars (num : Nat) : Option (List Char) :=
  let number := decChars num
  if 3 < number.length then
    match counterLoop num 1 30 with
    | none => none
    | some c =>
      let c1 := c - 1
      if number.length < 3 * c1 then none
      else
        let headLen := number.length - 3 * c1
        some (joinComma (number.take headLen :: takeGroups c1 (number.drop headLen)))
  else some number

def format_number (num : Nat) : Option String :=
  (formatNumberChars num).map String.mk

/-! Spec-side reference definitions for claim C8 (written from the spec's
words, to be compared with the embedded `format_number`). -/

/-- Splitting a nonempty digit string into groups of three from the right:
a head of one to three characters followed by `(len - 1) / 3` full groups. -/
def chunksFromRight (s : List Char) : List (List Char) :=
  let k := (s.length - 1) / 3
  s.take (s.length - 3 * k) :: takeGroups k (s.drop (s.length - 3 * k))

def stripCommas (s : List Char) : List Char := s.filter (fun c => c ≠ ',')

/-- Reading a digit string back as a number (the spec's "removing the commas
... parses back to n"). -/
def charsToNatAux : List Char → Nat → Nat
  | [], acc => acc
  | c :: rest, acc => charsToNatAux rest (acc * 10 + (c.toNat - '0'.toNat))

def charsToNat (s : List Char) : Nat := charsToNatAux s 0

example : format_number 180000 = some "180,000" := by decide
example : format_number 999 = some "999" := by decide
example : format_number 0 = some "0" := by decide
example : format_number 1000000 = some "1,000,000" := by decide

/-! ### util.rs: unit-scaling formatters

`f64` values are idealised as exact rationals.  Rust float-to-integer `as`
casts truncate toward zero and saturate at the integer type's bounds. -/

/-- Rust `f64 as usize` (saturating, truncating toward zero) under the
exact-rational idealisation. -/
def f64AsUsize (x : Rat) : Nat := min (max x.floor 0).toNat (2 ^ 64 - 1)

/-- Rust `u64 as i64` (wrapping). -/
def u64AsI64 (n : Nat) : Int :=
  if n % 2 ^ 64 < 2 ^ 63 then (n % 2 ^ 64 : Int) else (n % 2 ^ 64 : Int) - 2 ^ 64

/-- Rust `u64 as usize` on a 64-bit target (identity modulo `2 ^ 64`). -/
def u64AsUsize (n : Nat) : Nat := n % 2 ^ 64

/-- `format_gh_to_th` (util.rs:6-10); `none` models a `format_number` panic. -/
def format_gh_to_th (amount : Rat) : Option String :=
  (format_number (f64AsUsize (amount / 1000))).map (fun number => number ++ " Th/s")

/-- `format_sats` (util.rs:16-20). -/
def format_sats (amount : Nat) : Option String :=
  (format_number (u64AsUsize amount)).map (fun number => number ++ " SAT")

/-- `format_btc_to_sats` (util.rs:12-14); the `as u64` cast saturates at
`2 ^ 64 - 1`. -/
def format_btc_to_sats (amount : Rat) : Option String :=
  format_sats (min (max (amount * 100000000).floor 0).toNat (2 ^ 64 - 1))

/-! ### util.rs: date formatting

`timestamp_to_utc_datetime`/`format_date` (util.rs:62-70) delegate to the
external chrono crate: interpret the input as Unix seconds UTC and render with
the caller-supplied pattern.  chrono splits the timestamp with Euclidean
division and converts days-since-epoch to a civil date; the embedding
interprets exactly the `%`-specifiers the program uses (`%Y %m %d %H %M %S`),
leaving any other specifier verbatim. -/

/-- Civil (proleptic Gregorian) date from days since 1970-01-01. -/
def civilFromDays (z0 : Int) : Int × Nat × Nat :=
  let z := z0 + 719468
  let era := z / 146097
  let doe := (z - era * 146097).toNat
  let yoe := (doe - doe / 1460 + doe / 36524 - doe / 146096) / 365
  let doy := doe - (365 * yoe + yoe / 4 - yoe / 100)
  let mp := (5 * doy + 2) / 153
  let d := doy - (153 * mp + 2) / 5 + 1
  let m := if mp < 10 then mp + 3 else mp - 9
  ((yoe : Int) + era * 400 + (if m ≤ 2 then 1 else 0), m, d)

/-- Zero-pad a numeral to two digits. -/
def pad2 (n : Nat) : String :=
  if n < 10 then "0" ++ toString n else toString n

/-- chrono `%Y`: the year, zero-padded to four digits (years of this
application are in 1970..). -/
def pad4Year (y : Int) : String :=
  if 0 ≤ y ∧ y < 10 then "000" ++ toString y
  else if 0 ≤ y ∧ y < 100 then "00" ++ toString y
  else if 0 ≤ y ∧ y < 1000 then "0" ++ toString y
  else toString y

def formatSpec (c : Char) (y : Int) (m d hh mi ss : Nat) : List Char :=
  if c = 'Y' then (pad4Year y).data
  else if c = 'm' then (pad2 m).data
  else if c = 'd' then (pad2 d).data
  else if c = 'H' then (pad2 hh).data
  else if c = 'M' then (pad2 mi).data
  else if c = 'S' then (pad2 ss).data
  else ['%', c]

def renderFmt (y : Int) (m d hh mi ss : Nat) : List Char → List Char
  | [] => []
  | '%' :: c :: rest => formatSpec c y m d hh mi ss ++ renderFmt y m d hh mi ss rest
  | c :: rest => c :: renderFmt y m d hh mi ss rest

/-- `format_date` (util.rs:67-70). -/
def format_date (timestamp : Int) (fmt : String) : String :=
  let days := timestamp / 86400
  let secs := (timestamp % 86400).toNat
  let ymd := civilFromDays days
  String.mk (renderFmt ymd.1 ymd.2.1 ymd.2.2 (secs / 3600) (secs % 3600 / 60) (secs % 60) fmt.data)

example : format_date 1646649012 "%Y-%m-%d" = "2022-03-07" := by decide
example : format_date 1646649012 "%Y-%m-%d %H:%M:%S" = "2022-03-07 10:30:12" := by decide

example : format_gh_to_th 1000 = some "1 Th/s" := by
  have h : f64AsUsize (1000 / 1000) = 1 := by
    simp only [f64AsUsize]
    norm_num [Rat.floor_def']
  simp only [format_gh_to_th, h]
  decide

example : format_gh_to_th ((58209708833011 : Rat) / 10000) = some "5,820,970 Th/s" := by
  have h : f64AsUsize ((58209708833011 : Rat) / 10000 / 1000) = 5820970 := by
    simp only [f64AsUsize]
    norm_num [Rat.floor_def']
    decide
  simp only [format_gh_to_th, h]
  decide

example : format_btc_to_sats 1 = some "100,000,000 SAT" := by
  have h : (min (max ((1 : Rat) * 100000000).floor 0).toNat (2 ^ 64 - 1)) = 100000000 := by
    norm_num [Rat.floor_def']
    decide
  simp only [format_btc_to_sats, h]
  decide

example : format_btc_to_sats ((1 : Rat) / 100000000) = some "1 SAT" := by
  have h : (min (max (((1 : Rat) / 100000000) * 100000000).floor 0).toNat (2 ^ 64 - 1)) = 1 := by
    norm_num [Rat.floor_def']
  simp only [format_btc_to_sats, h]
  decide

/-! ### db.rs: the persistence adapter

The generic engine (bpns_rocksdb) is external; at its boundary a `get` is a
fallible lookup — per the spec, "existence check is 'lookup succeeds'", so a
missing key and an engine I/O failure are both `Err` at that boundary.  The
store state is an association list per column family, plus an oracle telling
which keys fail to read (modelling engine I/O failures); writes are modelled
as succeeding. -/

structure SessionRec where
  access_token : String
  device_id : String
deriving DecidableEq

structure UserRec where
  room_id : String
  token : String
deriving DecidableEq

/-- Outcome of the engine-level `db.get`. -/
inductive GetResult (α : Type) where
  | found (a : α)
  | notFound
  | ioError
deriving DecidableEq

/-- The reason carried by an `Err` from an engine read. -/
inductive StoreErr where
  | notFound
  | ioError
deriving DecidableEq

def assocFind {α : Type} : List (String × α) → String → Option α
  | [], _ => none
  | (k, v) :: rest, key => if k = key then some v else assocFind rest key

structure DBStore where
  sessions : List (String × SessionRec)
  users : List (String × UserRec)
  sessionFail : String → Bool
  userFail : String → Bool

def DBStore.rawGetSession (db : DBStore) (user_id : String) : GetResult SessionRec :=
  if db.sessionFail user_id then .ioError
  else
    match assocFind db.sessions user_id with
    | some s => .found s
    | none => .notFound

def DBStore.rawGetUser (db : DBStore) (user_id : String) : GetResult UserRec :=
  if db.userFail user_id then .ioError
  else
    match assocFind db.users user_id with
    | some u => .found u
    | none => .notFound

/-- Rust `Result::is_ok` on the engine read. -/
def GetResult.isOk {α : Type} : GetResult α → Bool
  | .found _ => true
  | .notFound => false
  | .ioError => false

/-- `DBStore::session_exist` (db.rs:60-62): `self.db.get(..).is_ok()`. -/
def DBStore.session_exist (db : DBStore) (user_id : String) : Bool :=
  (db.rawGetSession user_id).isOk

/-- `DBStore::get_session` (db.rs:64-66). -/
def DBStore.get_session (db : DBStore) (user_id : String) : Except StoreErr SessionRec :=
  match db.rawGetSession user_id with
  | .found s => .ok s
  | .notFound => .error .notFound
  | .ioError => .error .ioError

/-- `DBStore::create_session` (db.rs:46-58). -/
def DBStore.create_session (db : DBStore) (user_id access_token device_id : String) : DBStore :=
  { db with sessions := (user_id, ⟨access_token, device_id⟩) :: db.sessions }

/-- `DBStore::create_user` (db.rs:72-79). -/
def DBStore.create_user (db : DBStore) (user_id room_id token : String) : DBStore :=
  { db with users := (user_id, ⟨room_id, token⟩) :: db.users }

/-- `DBStore::user_exist` (db.rs:81-83): `self.db.get(..).is_ok()`. -/
def DBStore.user_exist (db : DBStore) (user_id : String) : Bool :=
  (db.rawGetUser user_id).isOk

/-- `DBStore::user_with_room_exist` (db.rs:85-94): the stored record's room
must equal the current room; any failed read yields `false`. -/
def DBStore.user_with_room_exist (db : DBStore) (user_id room_id : String) : Bool :=
  match db.rawGetUser user_id with
  | .found user => user.room_id == room_id
  | _ => false

/-- `DBStore::delete_user` (db.rs:96-98). -/
def DBStore.delete_user (db : DBStore) (user_id : String) : DBStore :=
  { db with users := db.users.filter (fun p => p.1 != user_id) }

/-- `DBStore::get_user` (db.rs:100-102). -/
def DBStore.get_user (db : DBStore) (user_id : String) : Except StoreErr UserRec :=
  match db.rawGetUser user_id with
  | .found u => .ok u
  | .notFound => .error .notFound
  | .ioError => .error .ioError

/-! ### The remote pool client boundary (braiinspool crate)

The dispatcher consumes the client through five calls; their outcomes for the
current invocation are supplied as an oracle.  `f64` fields are idealised as
`Rat`. -/

inductive RemoteErr where
  | err
deriving DecidableEq

structure Profile where
  confirmed_reward : Rat
  unconfirmed_reward : Rat
  estimated_reward : Rat
  hash_rate_5m : Rat
  hash_rate_60m : Rat
  hash_rate_24h : Rat
  hash_rate_scoring : Rat
  hash_rate_yesterday : Rat
  ok_workers : Int
  low_workers : Int
  off_workers : Int
  dis_workers : Int

structure Worker where
  state : String
  last_share : Nat
  hash_rate_scoring : Rat
  hash_rate_5m : Rat
  hash_rate_60m : Rat
  hash_rate_24h : Rat

structure DailyReward where
  date : Nat
  total_reward : Rat

structure PoolStats where
  luck_b10 : Rat
  luck_b50 : Rat
  luck_b250 : Rat
  pool_scoring_hash_rate : Rat
  pool_active_workers : Int
  round_probability : Rat

structure RemoteApi where
  user_profile : Except RemoteErr Profile
  workers : Except RemoteErr (List (String × Worker))
  daily_rewards : Except RemoteErr (List DailyReward)
  pool_stats : Except RemoteErr PoolStats
  check_tor_connection : Except RemoteErr Bool

/-! ### bot/mod.rs: reply-text builders

Each builder mirrors the `push_str` sequence of the corresponding command arm;
`none` propagates a formatter panic. -/

/-- Rust `{}` display of an idealised `f64` (decimal rendering idealised). -/
def displayF64 (x : Rat) : String := toString x

/-- The worker-name rendering of bot/mod.rs:213-216: split the qualified name
on `'.'` and, when there are at least two pieces, display the second piece. -/
def workerNameTokens (name : String) : List String :=
  (splitChar '.' name.data).map String.mk

def workerDisplayName (name : String) : Option String :=
  match workerNameTokens name with
  | _ :: second :: _ => some second
  | _ => none

/-- One worker's block in the `!workers` reply (bot/mod.rs:212-239). -/
def workerBlock (name : String) (worker : Worker) : Option String := do
  let nameLine :=
    match workerDisplayName name with
    | some n => "Worker: " ++ n ++ "\n"
    | none => ""
  let hs ← format_gh_to_th worker.hash_rate_scoring
  let h5 ← format_gh_to_th worker.hash_rate_5m
  let h60 ← format_gh_to_th worker.hash_rate_60m
  let h24 ← format_gh_to_th worker.hash_rate_24h
  return nameLine
    ++ "Status: " ++ worker.state ++ "\n"
    ++ "Last share: " ++ format_date (u64AsI64 worker.last_share) "%Y-%m-%d %H:%M:%S" ++ "\n"
    ++ "Hashrate scoring: " ++ hs ++ "\n"
    ++ "Hashrate 5m: " ++ h5 ++ "\n"
    ++ "Hashrate 60m: " ++ h60 ++ "\n"
    ++ "Hashrate 24h: " ++ h24 ++ "\n\n"

/-- The `!userstatus` reply (bot/mod.rs:156-194). -/
def userStatusMsg (obj : Profile) : Option String := do
  let reward ← format_btc_to_sats obj.confirmed_reward
  let unconfirmed ← format_btc_to_sats obj.unconfirmed_reward
  let estimated ← format_btc_to_sats obj.estimated_reward
  let h5 ← format_gh_to_th obj.hash_rate_5m
  let h60 ← format_gh_to_th obj.hash_rate_60m
  let h24 ← format_gh_to_th obj.hash_rate_24h
  let hs ← format_gh_to_th obj.hash_rate_scoring
  let hy ← format_gh_to_th obj.hash_rate_yesterday
  return "User Status\n\n"
    ++ "Reward: " ++ reward ++ "\n"
    ++ "Unconfirmed reward: " ++ unconfirmed ++ "\n"
    ++ "Estimate reward (block): " ++ estimated ++ "\n\n"
    ++ "Hashrate 5m: " ++ h5 ++ "\n"
    ++ "Hashrate 60m: " ++ h60 ++ "\n"
    ++ "Hashrate 24h: " ++ h24 ++ "\n"
    ++ "Hashrate scoring: " ++ hs ++ "\n"
    ++ "Hashrate yesterday: " ++ hy ++ "\n\n"
    ++ "Ok workers: " ++ toString obj.ok_workers ++ "\n"
    ++ "Low workers: " ++ toString obj.low_workers ++ "\n"
    ++ "Off workers: " ++ toString obj.off_workers ++ "\n"
    ++ "Disabled workers: " ++ toString obj.dis_workers

/-- The `!workers` reply (bot/mod.rs:210-239). -/
def workersMsg (obj : List (String × Worker)) : Option String :=
  obj.foldlM (fun acc p => (workerBlock p.1 p.2).map (fun block => acc ++ block))
    ("Workers\n\n" : String)

/-- The `!dailyrewards` reply (bot/mod.rs:255-263). -/
def dailyRewardsMsg (obj : List DailyReward) : Option String :=
  obj.foldlM
    (fun acc reward =>
      (format_btc_to_sats reward.total_reward).map
        (fun sats =>
          acc ++ format_date (u64AsI64 reward.date) "%Y-%m-%d" ++ ": " ++ sats ++ "\n"))
    ("Daily Rewards\n\n" : String)

/-- The `!poolstatus` reply (bot/mod.rs:279-291). -/
def poolStatusMsg (obj : PoolStats) : Option String := do
  let hs ← format_gh_to_th obj.pool_scoring_hash_rate
  let active ← format_number (u64AsUsize (obj.pool_active_workers % 2 ^ 64).toNat)
  return "Pool Status\n\n"
    ++ "Luck 10 blocks: " ++ displayF64 obj.luck_b10 ++ "\n"
    ++ "Luck 50 blocks: " ++ displayF64 obj.luck_b50 ++ "\n"
    ++ "Luck 250 blocks: " ++ displayF64 obj.luck_b250 ++ "\n"
    ++ "Hashrate scoring: " ++ hs ++ "\n"
    ++ "Active workers: " ++ active ++ "\n"
    ++ "Round probability: " ++ displayF64 obj.round_probability ++ "\n"

/-- The `!help` reply (bot/mod.rs:343-351). -/
def helpMsg : String :=
  "!userstatus - Get user status\n"
    ++ "!workers - Get workers\n"
    ++ "!dailyrewards - Get daily rewards\n"
    ++ "!poolstatus - Get pool status\n"
    ++ "!subscribe <token> - Subscribe with token\n"
    ++ "!unlink - Unlink account from token\n"
    ++ "!checktor - Check Tor connection\n"
    ++ "!help - Help"

/-! ### bot/mod.rs: the command dispatcher -/

structure Config where
  user_id : String
  password : String

inductive Membership where
  | joined
  | invited
  | left
deriving DecidableEq

structure Room where
  room_id : String
  membership : Membership

inductive MsgContent where
  | text (body : String)
  | other

structure MessageEvent where
  sender : String
  content : MsgContent

/-- The variants of `bot::Error` reachable from the dispatcher. -/
inductive BotError where
  | db (e : StoreErr)
  | slushPool (e : RemoteErr)
deriving DecidableEq

inductive RemoteOp where
  | userProfile
  | workersList
  | dailyRewards
  | poolStats
  | checkTor
deriving DecidableEq

/-- Observable side effects of one dispatch, in chronological order. -/
inductive Effect where
  | readUser (user_id : String)
  | readSession (user_id : String)
  | createUser (user_id room_id token : String)
  | deleteUser (user_id : String)
  | remote (op : RemoteOp)
  | send (text : String)
  | redact
deriving DecidableEq

/-- `msg_body.split(' ')` of bot/mod.rs:142. -/
def tokensOf (body : String) : List String :=
  (splitChar ' ' body.data).map String.mk

/-- Outcome of one command arm before the trailing send: effects so far, the
(possibly updated) store, and either an early error or the `msg_content`
accumulated for the trailing send ("" meaning none). -/
def ArmResult : Type := List Effect × DBStore × Except BotError String

def handleUserStatus (db : DBStore) (api : RemoteApi) (user_id : String) :
    Option ArmResult :=
  if db.user_exist user_id then
    match db.get_user user_id with
    | .error e => some ([.readUser user_id, .readUser user_id], db, .error (.db e))
    | .ok _user =>
      match api.user_profile with
      | .error e =>
        some ([.readUser user_id, .readUser user_id, .remote .userProfile], db,
          .error (.slushPool e))
      | .ok obj =>
        match userStatusMsg obj with
        | none => none
        | some msg =>
          some ([.readUser user_id, .readUser user_id, .remote .userProfile, .send msg], db,
            .ok "")
  else some ([.readUser user_id], db, .ok "This account in not subscribed.")

def handleWorkers (db : DBStore) (api : RemoteApi) (user_id : String) :
    Option ArmResult :=
  if db.user_exist user_id then
    match db.get_user user_id with
    | .error e => some ([.readUser user_id, .readUser user_id], db, .error (.db e))
    | .ok _user =>
      match api.workers with
      | .error e =>
        some ([.readUser user_id, .readUser user_id, .remote .workersList], db,
          .error (.slushPool e))
      | .ok obj =>
        match workersMsg obj with
        | none => none
        | some msg =>
          some ([.readUser user_id, .readUser user_id, .remote .workersList, .send msg], db,
            .ok "")
  else some ([.readUser user_id], db, .ok "This account in not subscribed.")

def handleDailyRewards (db : DBStore) (api : RemoteApi) (user_id : String) :
    Option ArmResult :=
  if db.user_exist user_id then
    match db.get_user user_id with
    | .error e => some ([.readUser user_id, .readUser user_id], db, .error (.db e))
    | .ok _user =>
      match api.daily_rewards with
      | .error e =>
        some ([.readUser user_id, .readUser user_id, .remote .dailyRewards], db,
          .error (.slushPool e))
      | .ok obj =>
        match dailyRewardsMsg obj with
        | none => none
        | some msg =>
          some ([.readUser user_id, .readUser user_id, .remote .dailyRewards, .send msg], db,
            .ok "")
  else some ([.readUser user_id], db, .ok "This account in not subscribed.")

def handlePoolStatus (db : DBStore) (api : RemoteApi) (user_id : String) :
    Option ArmResult :=
  if db.user_exist user_id then
    match db.get_user user_id with
    | .error e => some ([.readUser user_id, .readUser user_id], db, .error (.db e))
    | .ok _user =>
      match api.pool_stats with
      | .error e =>
        some ([.readUser user_id, .readUser user_id, .remote .poolStats], db,
          .error (.slushPool e))
      | .ok obj =>
        match poolStatusMsg obj with
        | none => none
        | some msg =>
          some ([.readUser user_id, .readUser user_id, .remote .poolStats, .send msg], db,
            .ok "")
  else some ([.readUser user_id], db, .ok "This account in not subscribed.")

/-- The `!subscribe` arm (bot/mod.rs:299-322). -/
def handleSubscribe (db : DBStore) (user_id room_id : String) (tokens : List String) :
    Option ArmResult :=
  if db.user_with_room_exist user_id room_id then
    some ([.readUser user_id], db, .ok "This account is already subscribed")
  else
    match tokens with
    | _ :: token :: _ =>
      if token = "" then
        some ([.readUser user_id], db,
          .ok "Please provide a token.\nTo subscribe send: !subscribe <token>")
      else
        some ([.readUser user_id, .createUser user_id room_id token, .redact],
          db.create_user user_id room_id token, .ok "Subscribed")
    | _ =>
      some ([.readUser user_id], db,
        .ok "Please provide a token.\nTo subscribe send: !subscribe <token>")

/-- The `!unlink` arm (bot/mod.rs:323-330). -/
def handleUnlink (db : DBStore) (user_id : String) : Option ArmResult :=
  if db.user_exist user_id then
    some ([.readUser user_id, .deleteUser user_id], db.delete_user user_id, .ok "Unlinked")
  else some ([.readUser user_id], db, .ok "No token linked to this account")

/-- The `!checktor` arm (bot/mod.rs:331-341). -/
def handleChecktor (db : DBStore) (api : RemoteApi) : Option ArmResult :=
  match api.check_tor_connection with
  | .error e => some ([.remote .checkTor], db, .error (.slushPool e))
  | .ok is_tor =>
    if is_tor then some ([.remote .checkTor], db, .ok "Connected to Tor Network")
    else some ([.remote .checkTor], db, .ok "NOT connected to Tor Network")

/-- The command match of bot/mod.rs:147-359. -/
def dispatchCommand (db : DBStore) (api : RemoteApi) (user_id room_id : String)
    (tokens : List String) (command : String) : Option ArmResult :=
  if command = "!userstatus" then handleUserStatus db api user_id
  else if command = "!workers" then handleWorkers db api user_id
  else if command = "!dailyrewards" then handleDailyRewards db api user_id
  else if command = "!poolstatus" then handlePoolStatus db api user_id
  else if command = "!subscribe" then handleSubscribe db user_id room_id tokens
  else if command = "!unlink" then handleUnlink db user_id
  else if command = "!checktor" then handleChecktor db api
  else if command = "!help" then some ([.send helpMsg], db, .ok "")
  else some ([], db, .ok "Invalid command")

/-- The trailing `if !msg_content.is_empty() { room.send(..) }` of
bot/mod.rs:361-364, and packaging of the final result. -/
def finalize : ArmResult → Except BotError Unit × List Effect × DBStore
  | (effects, db, .error e) => (.error e, effects, db)
  | (effects, db, .ok msg) =>
    (.ok (), effects ++ (if msg = "" then [] else [.send msg]), db)

/-- Embedding of `Bot::on_room_message` (bot/mod.rs:120-374).  The result is
`none` when the handler would panic, otherwise the `Result` value together
with the side effects performed and the resulting store. -/
def on_room_message (cfg : Config) (db : DBStore) (api : RemoteApi)
    (event : MessageEvent) (room : Room) :
    Option (Except BotError Unit × List Effect × DBStore) :=
  if event.sender = cfg.user_id then some (.ok (), [], db)
  else
    match room.membership with
    | .joined =>
      match event.content with
      | .other => some (.ok (), [], db)
      | .text msg_body =>
        match tokensOf msg_body with
        | [] => none
        | command :: rest =>
          (dispatchCommand db api event.sender room.room_id (command :: rest) command).map
            finalize
    | .invited => some (.ok (), [], db)
    | .left => some (.ok (), [], db)

/-! ### bot/mod.rs: the session phase of `Bot::run` (lines 53-86) -/

inductive MatrixErr where
  | err
deriving DecidableEq

inductive SessionAction where
  | restoreLogin (access_token device_id : String)
  | passwordLogin (username password : String)
deriving DecidableEq

/-- Outcome of the external matrix client if a fresh credential login is
performed: whether `client.login` succeeds, and what `client.session()`
returns afterwards (access token, device id). -/
structure LoginEnv where
  loginResult : Except MatrixErr Unit
  sessionData : Option (String × String)

inductive RunError where
  | db (e : StoreErr)
  | matrix (e : MatrixErr)
deriving DecidableEq

/-- ruma `UserId::localpart`: the part of `@name:server` between `@` and `:`. -/
def localpart (user_id : String) : String :=
  String.mk ((user_id.data.drop 1).takeWhile (fun c => c != ':'))

/-- The session-resume decision of `Bot::run` (bot/mod.rs:53-86): restore the
stored session when one exists, otherwise log in with the password and persist
the fresh session data when the client yields some (warn-and-continue when it
does not). -/
def runSessionPhase (cfg : Config) (env : LoginEnv) (db : DBStore) :
    Except RunError (List SessionAction × DBStore) :=
  if db.session_exist cfg.user_id then
    match db.get_session cfg.user_id with
    | .error e => .error (.db e)
    | .ok s => .ok ([.restoreLogin s.access_token s.device_id], db)
  else
    match env.loginResult with
    | .error e => .error (.matrix e)
    | .ok _ =>
      let actions := [SessionAction.passwordLogin (localpart cfg.user_id) cfg.password]
      match env.sessionData with
      | some (token, device) => .ok (actions, db.create_session cfg.user_id token device)
      | none => .ok (actions, db)

/-! ### Concrete fixtures used by witnesses and counterexamples -/

def exampleCfg : Config := ⟨"@bot:example.org", "hunter2"⟩

/-- A remote-API oracle whose calls all fail; the branches exercised by the
witnesses never reach it. -/
def exampleApi : RemoteApi := ⟨.error .err, .error .err, .error .err, .error .err, .error .err⟩

/-- An empty store with no read failures. -/
def emptyDb : DBStore := ⟨[], [], fun _ => false, fun _ => false⟩

/-- A store in which `@alice` is subscribed from room `!roomA`. -/
def aliceDb : DBStore :=
  ⟨[], [("@alice:example.org", ⟨"!roomA:example.org", "tokA"⟩)], fun _ => false, fun _ => false⟩

/-- Like `aliceDb`, but every read of `@alice`'s subscription record fails at
the engine level (an I/O failure, not a missing record). -/
def aliceDbFailing : DBStore :=
  ⟨[], [("@alice:example.org", ⟨"!roomA:example.org", "tokA"⟩)], fun _ => false,
    fun u => u == "@alice:example.org"⟩

def roomA : Room := ⟨"!roomA:example.org", .joined⟩
def roomB : Room := ⟨"!roomB:example.org", .joined⟩

def knownCommands : List String :=
  ["!userstatus", "!workers", "!dailyrewards", "!poolstatus", "!subscribe", "!unlink",
    "!checktor", "!help"]

/-! ### Claim C6 -/

/-- Claim C6: for every inbound message event whose sender equals the bot's
own configured identity, the dispatcher returns successfully with zero replies
and zero side effects (no store read or write, no remote call, no room
message). -/
theorem self_message_has_no_effects (cfg : Config) (db : DBStore) (api : RemoteApi)
    (event : MessageEvent) (room : Room) (h : event.sender = cfg.user_id) :
    on_room_message cfg db api event room = some (.ok (), [], db) := by
  simp [on_room_message, h]

theorem self_message_has_no_effects_witness :
    on_room_message exampleCfg emptyDb exampleApi ⟨"@bot:example.org", .text "!unlink"⟩ roomA
      = some (.ok (), [], emptyDb) :=
  self_message_has_no_effects exampleCfg emptyDb exampleApi
    ⟨"@bot:example.org", .text "!unlink"⟩ roomA rfl

/-! ### Claim C10 -/

/-- Claim C10: splitting a message body on spaces always yields at least one
token, so reading the first token cannot panic; and a body whose first token
matches no command literal receives exactly the "Invalid command" reply. -/
theorem command_extraction_total_and_unknown_replies_invalid :
    (∀ body : String, tokensOf body ≠ []) ∧
      ∀ (cfg : Config) (db : DBStore) (api : RemoteApi) (room : Room)
        (sender body command : String) (rest : List String),
        sender ≠ cfg.user_id → room.membership = .joined →
        tokensOf body = command :: rest → command ∉ knownCommands →
        on_room_message cfg db api ⟨sender, .text body⟩ room
          = some (.ok (), [.send "Invalid command"], db) := by
  constructor
  · intro body
    simp only [tokensOf, ne_eq, List.map_eq_nil_iff]
    exact splitChar_ne_nil ' ' body.data
  · intro cfg db api room sender body command rest hsender hroom htok hcmd
    simp only [knownCommands, List.mem_cons, List.not_mem_nil, or_false, not_or] at hcmd
    obtain ⟨h1, h2, h3, h4, h5, h6, h7, h8⟩ := hcmd
    simp [on_room_message, hsender, hroom, htok, dispatchCommand, h1, h2, h3, h4, h5, h6, h7,
      h8, finalize]

theorem command_extraction_witness :
    tokensOf "!bogus" ≠ [] ∧
      on_room_message exampleCfg emptyDb exampleApi ⟨"@alice:example.org", .text "!bogus"⟩ roomA
        = some (.ok (), [.send "Invalid command"], emptyDb) :=
  ⟨command_extraction_total_and_unknown_replies_invalid.1 "!bogus",
    command_extraction_total_and_unknown_replies_invalid.2 exampleCfg emptyDb exampleApi roomA
      "@alice:example.org" "!bogus" "!bogus" [] (by decide) rfl (by decide) (by decide)⟩

/-! ### Claim C3 -/

/-- Claim C3: for every sender without a Subscription record, each of the
account-query commands `!userstatus`, `!workers`, `!dailyrewards`,
`!poolstatus` replies exactly "This account in not subscribed." and performs
no remote-API call (the complete effect trace is one store read and the
reply). -/
theorem unsubscribed_query_replies_not_subscribed (cfg : Config) (db : DBStore)
    (api : RemoteApi) (room : Room) (user_id body command : String) (rest : List String)
    (hsender : user_id ≠ cfg.user_id)
    (hroom : room.membership = .joined)
    (htok : tokensOf body = command :: rest)
    (hcmd : command ∈ (["!userstatus", "!workers", "!dailyrewards", "!poolstatus"] : List String))
    (hrec : assocFind db.users user_id = none)
    (hfail : db.userFail user_id = false) :
    on_room_message cfg db api ⟨user_id, .text body⟩ room
      = some (.ok (), [.readUser user_id, .send "This account in not subscribed."], db) := by
  simp only [List.mem_cons, List.not_mem_nil, or_false] at hcmd
  rcases hcmd with h | h | h | h <;> subst h <;>
    simp [on_room_message, hsender, hroom, htok, dispatchCommand, handleUserStatus,
      handleWorkers, handleDailyRewards, handlePoolStatus, DBStore.user_exist,
      DBStore.rawGetUser, GetResult.isOk, hrec, hfail, finalize]

theorem unsubscribed_query_witness :
    on_room_message exampleCfg emptyDb exampleApi
        ⟨"@alice:example.org", .text "!userstatus"⟩ roomA
      = some (.ok (),
          [.readUser "@alice:example.org", .send "This account in not subscribed."], emptyDb) :=
  unsubscribed_query_replies_not_subscribed exampleCfg emptyDb exampleApi roomA
    "@alice:example.org" "!userstatus" "!userstatus" [] (by decide) rfl (by decide) (by decide)
    rfl rfl

/-! ### Claim C1 -/

/-- Claim C1 counterexample: `@alice` already has a Subscription record
(created in `!roomA`), yet `!subscribe newtok` sent from `!roomB` does not
reply "This account is already subscribed" — the room-scoped existence check
`user_with_room_exist` misses the record, so the bot replies "Subscribed" and
overwrites the subscription (a persistence write). -/
theorem subscribe_other_room_counterexample :
    assocFind aliceDb.users "@alice:example.org"
        = some ⟨"!roomA:example.org", "tokA"⟩ ∧
      on_room_message exampleCfg aliceDb exampleApi
          ⟨"@alice:example.org", .text "!subscribe newtok"⟩ roomB
        = some (.ok (),
            [.readUser "@alice:example.org",
             .createUser "@alice:example.org" "!roomB:example.org" "newtok", .redact,
             .send "Subscribed"],
            aliceDb.create_user "@alice:example.org" "!roomB:example.org" "newtok") :=
  ⟨rfl, rfl⟩

/-- Claim C1 (amended): for every user who already has a Subscription record,
a `!subscribe <token>` message sent by that user from the room stored in the
subscription replies "This account is already subscribed" and performs no
persistence write; from a different room the check misses and the
subscription is instead overwritten. -/
theorem subscribe_same_room_already_subscribed (cfg : Config) (db : DBStore)
    (api : RemoteApi) (room : Room) (user_id body : String) (rest : List String)
    (rec : UserRec)
    (hsender : user_id ≠ cfg.user_id)
    (hroom : room.membership = .joined)
    (htok : tokensOf body = "!subscribe" :: rest)
    (hrec : assocFind db.users user_id = some rec)
    (hsameroom : rec.room_id = room.room_id)
    (hfail : db.userFail user_id = false) :
    on_room_message cfg db api ⟨user_id, .text body⟩ room
      = some (.ok (), [.readUser user_id, .send "This account is already subscribed"], db) := by
  simp [on_room_message, hsender, hroom, htok, dispatchCommand, handleSubscribe,
    DBStore.user_with_room_exist, DBStore.rawGetUser, hrec, hfail, hsameroom, finalize]

theorem subscribe_same_room_witness :
    on_room_message exampleCfg aliceDb exampleApi
        ⟨"@alice:example.org", .text "!subscribe tokB"⟩ roomA
      = some (.ok (),
          [.readUser "@alice:example.org", .send "This account is already subscribed"],
          aliceDb) :=
  subscribe_same_room_already_subscribed exampleCfg aliceDb exampleApi roomA
    "@alice:example.org" "!subscribe tokB" ["tokB"] ⟨"!roomA:example.org", "tokA"⟩
    (by decide) rfl (by decide) rfl rfl rfl

/-! ### Claim C2 -/

/-- Claim C2 counterexample: reading `@alice`'s subscription record fails at
the engine level with an I/O error (the record is present), yet `!userstatus`
completes successfully with the "not subscribed" reply: the boolean existence
check `user_exist` turned the store failure into "no record found" instead of
surfacing a store error. -/
theorem store_failure_counterexample :
    aliceDbFailing.rawGetUser "@alice:example.org" = .ioError ∧
      assocFind aliceDbFailing.users "@alice:example.org"
        = some ⟨"!roomA:example.org", "tokA"⟩ ∧
      on_room_message exampleCfg aliceDbFailing exampleApi
          ⟨"@alice:example.org", .text "!userstatus"⟩ roomA
        = some (.ok (),
            [.readUser "@alice:example.org", .send "This account in not subscribed."],
            aliceDbFailing) :=
  ⟨rfl, rfl, rfl⟩

/-- Claim C2 (amended): a failing store read inside `get_user`/`get_session`
is surfaced as a store error, but the boolean existence checks
(`user_exist`, `user_with_room_exist`, `session_exist`) map an engine I/O
failure to `false`, i.e. they treat it exactly like "no record found", and the
dispatcher then takes the not-found branch. -/
theorem store_failure_conflated_with_absence (db : DBStore)
    (user_id room_id session_id : String)
    (hu : db.rawGetUser user_id = .ioError)
    (hs : db.rawGetSession session_id = .ioError) :
    db.get_user user_id = .error .ioError ∧
      db.user_exist user_id = false ∧
      db.user_with_room_exist user_id room_id = false ∧
      db.get_session session_id = .error .ioError ∧
      db.session_exist session_id = false := by
  simp [DBStore.get_user, DBStore.user_exist, DBStore.user_with_room_exist,
    DBStore.get_session, DBStore.session_exist, hu, hs, GetResult.isOk]

/-- A store whose engine reads fail for both record kinds, with the records
present. -/
def failingDb : DBStore :=
  ⟨[("@bot:example.org", ⟨"syt_token", "DEVICE"⟩)],
    [("@alice:example.org", ⟨"!roomA:example.org", "tokA"⟩)],
    fun u => u == "@bot:example.org",
    fun u => u == "@alice:example.org"⟩

theorem store_failure_conflated_witness :
    failingDb.get_user "@alice:example.org" = .error .ioError ∧
      failingDb.user_exist "@alice:example.org" = false ∧
      failingDb.user_with_room_exist "@alice:example.org" "!roomA:example.org" = false ∧
      failingDb.get_session "@bot:example.org" = .error .ioError ∧
      failingDb.session_exist "@bot:example.org" = false :=
  store_failure_conflated_with_absence failingDb "@alice:example.org" "!roomA:example.org"
    "@bot:example.org" rfl rfl

/-! ### Claim C4 -/

theorem assocFind_filter_ne {α : Type} (l : List (String × α)) (k : String) :
    assocFind (l.filter (fun p => p.1 != k)) k = none := by
  induction l with
  | nil => simp [assocFind]
  | cons p rest ih =>
    by_cases h : p.1 = k
    · simp [List.filter_cons, h, ih]
    · have hb : (p.1 != k) = true := by simp [h]
      simp [List.filter_cons, hb, assocFind, h, ih]

/-- Claim C4: for every user with no prior Subscription, processing
`!subscribe foo` and then `!unlink` from that user leaves no Subscription
record in the store, and a subsequent `!userstatus` from that user replies
the not-subscribed message. -/
theorem subscribe_then_unlink_leaves_no_record (cfg : Config) (db : DBStore)
    (api : RemoteApi) (room : Room) (user_id : String)
    (hsender : user_id ≠ cfg.user_id)
    (hroom : room.membership = .joined)
    (hrec : assocFind db.users user_id = none)
    (hfail : db.userFail user_id = false) :
    on_room_message cfg db api ⟨user_id, .text "!subscribe foo"⟩ room
        = some (.ok (),
            [.readUser user_id, .createUser user_id room.room_id "foo", .redact,
             .send "Subscribed"],
            db.create_user user_id room.room_id "foo") ∧
      on_room_message cfg (db.create_user user_id room.room_id "foo") api
          ⟨user_id, .text "!unlink"⟩ room
        = some (.ok (), [.readUser user_id, .deleteUser user_id, .send "Unlinked"],
            (db.create_user user_id room.room_id "foo").delete_user user_id) ∧
      assocFind ((db.create_user user_id room.room_id "foo").delete_user user_id).users
          user_id = none ∧
      on_room_message cfg ((db.create_user user_id room.room_id "foo").delete_user user_id)
          api ⟨user_id, .text "!userstatus"⟩ room
        = some (.ok (), [.readUser user_id, .send "This account in not subscribed."],
            (db.create_user user_id room.room_id "foo").delete_user user_id) := by
  have htok1 : tokensOf "!subscribe foo" = ["!subscribe", "foo"] := rfl
  have htok2 : tokensOf "!unlink" = ["!unlink"] := rfl
  have htok3 : tokensOf "!userstatus" = ["!userstatus"] := rfl
  have hnone : assocFind ((db.create_user user_id room.room_id "foo").delete_user
      user_id).users user_id = none := by
    simp only [DBStore.create_user, DBStore.delete_user]
    exact assocFind_filter_ne _ user_id
  refine ⟨?_, ?_, hnone, ?_⟩
  · simp [on_room_message, hsender, hroom, htok1, dispatchCommand, handleSubscribe,
      DBStore.user_with_room_exist, DBStore.rawGetUser, hrec, hfail, finalize]
  · simp [on_room_message, hsender, hroom, htok2, dispatchCommand, handleUnlink,
      DBStore.user_exist, DBStore.rawGetUser, DBStore.create_user, assocFind, hfail,
      GetResult.isOk, finalize]
  · simp [on_room_message, hsender, hroom, htok3, dispatchCommand, handleUserStatus,
      DBStore.user_exist, DBStore.rawGetUser, DBStore.create_user, DBStore.delete_user,
      assocFind_filter_ne, hfail, GetResult.isOk, finalize]

theorem subscribe_then_unlink_witness :
    assocFind
        ((emptyDb.create_user "@carol:example.org" "!roomA:example.org" "foo").delete_user
          "@carol:example.org").users "@carol:example.org" = none :=
  (subscribe_then_unlink_leaves_no_record exampleCfg emptyDb exampleApi roomA
    "@carol:example.org" (by decide) rfl rfl rfl).2.2.1

/-! ### Claim C5 -/

/-- Claim C5: given a pre-existing Session record for the configured user id,
startup restores the protocol session from the stored access_token/device_id,
and the action trace contains no password-based login. -/
theorem session_restore_skips_password_login (cfg : Config) (env : LoginEnv)
    (db : DBStore) (s : SessionRec)
    (hrec : assocFind db.sessions cfg.user_id = some s)
    (hfail : db.sessionFail cfg.user_id = false) :
    runSessionPhase cfg env db = .ok ([.restoreLogin s.access_token s.device_id], db) ∧
      ∀ u p, SessionAction.passwordLogin u p
          ∉ [SessionAction.restoreLogin s.access_token s.device_id] := by
  constructor
  · simp [runSessionPhase, DBStore.session_exist, DBStore.get_session,
      DBStore.rawGetSession, hrec, hfail, GetResult.isOk]
  · simp

/-- A store holding a Session record for the configured bot account. -/
def sessionDb : DBStore :=
  ⟨[("@bot:example.org", ⟨"syt_access", "DEVICEID"⟩)], [], fun _ => false, fun _ => false⟩

theorem session_restore_witness :
    runSessionPhase exampleCfg ⟨.ok (), none⟩ sessionDb
      = .ok ([.restoreLogin "syt_access" "DEVICEID"], sessionDb) :=
  (session_restore_skips_password_login exampleCfg ⟨.ok (), none⟩ sessionDb
    ⟨"syt_access", "DEVICEID"⟩ rfl rfl).1

/-! ### Claim C7 -/

/-- Spec-side reading of C7: the portion of the qualified worker name after
the first `.`, when a `.` is present. -/
def afterFirstDot (name : String) : Option String :=
  if '.' ∈ name.data then
    some (String.mk ((name.data.dropWhile (fun c => c != '.')).tail))
  else none

theorem splitChar_head (sep : Char) (s : List Char) :
    ∃ gs, splitChar sep s = s.takeWhile (fun c => c != sep) :: gs := by
  induction s with
  | nil => exact ⟨[], rfl⟩
  | cons c rest ih =>
    by_cases h : c = sep
    · refine ⟨splitChar sep rest, ?_⟩
      simp [splitChar, h, List.takeWhile_cons]
    · obtain ⟨gs, hg⟩ := ih
      refine ⟨gs, ?_⟩
      have hb : (c != sep) = true := by simp [h]
      simp [splitChar, h, hg, List.takeWhile_cons, hb]

theorem splitChar_of_mem (sep : Char) (s : List Char) (h : sep ∈ s) :
    splitChar sep s
      = s.takeWhile (fun c => c != sep)
          :: splitChar sep ((s.dropWhile (fun c => c != sep)).tail) := by
  induction s with
  | nil => cases h
  | cons c rest ih =>
    by_cases hc : c = sep
    · subst hc
      simp [splitChar, List.takeWhile_cons, List.dropWhile_cons]
    · have hb : (c != sep) = true := by simp [hc]
      have hmem : sep ∈ rest := by
        rcases List.mem_cons.1 h with h1 | h1
        · exact absurd h1.symm hc
        · exact h1
      simp only [splitChar, if_neg hc, ih hmem]
      simp [List.takeWhile_cons, List.dropWhile_cons, hb]

/-- Claim C7 counterexample: for the qualified worker name `"user.rig.gpu0"`
the displayed name rendered by the `!workers` arm is `"rig"`, the second
`.`-separated piece — not `"rig.gpu0"`, the portion after the first `.`. -/
theorem worker_name_counterexample :
    workerDisplayName "user.rig.gpu0" = some "rig" ∧
      afterFirstDot "user.rig.gpu0" = some "rig.gpu0" ∧
      workerDisplayName "user.rig.gpu0" ≠ afterFirstDot "user.rig.gpu0" := by
  refine ⟨rfl, by decide, by decide⟩

/-- Claim C7 (amended): in the `!workers` reply, each worker's displayed name
is the portion of the qualified name strictly between the first `.` and the
following `.` (when a `.` is present) — i.e. the portion after the first `.`
truncated at the next `.`. -/
theorem worker_display_name_between_dots (name : String) (h : '.' ∈ name.data) :
    workerDisplayName name
      = some (String.mk
          (((name.data.dropWhile (fun c => c != '.')).tail).takeWhile (fun c => c != '.'))) := by
  obtain ⟨gs, hg⟩ := splitChar_head '.' ((name.data.dropWhile (fun c => c != '.')).tail)
  simp [workerDisplayName, workerNameTokens, splitChar_of_mem '.' name.data h, hg]

theorem worker_display_name_witness :
    '.' ∈ ("a.b" : String).data ∧
      workerDisplayName "a.b"
        = some (String.mk
            (((("a.b" : String).data.dropWhile (fun c => c != '.')).tail).takeWhile
              (fun c => c != '.'))) :=
  ⟨by decide, worker_display_name_between_dots "a.b" (by decide)⟩

/-! ### Claim C8: supporting lemmas about the decimal rendering -/

theorem decCharsAux_zero (fuel : Nat) : decCharsAux fuel 0 = [] := by
  cases fuel <;> simp [decCharsAux]

theorem decCharsAux_length (fuel : Nat) :
    ∀ n : Nat, 0 < n → n < 10 ^ fuel → (decCharsAux fuel n).length = Nat.log 10 n + 1 := by
  induction fuel with
  | zero => intro n h0 h; omega
  | succ fuel ih =>
    intro n h0 h
    rw [decCharsAux, if_neg (Nat.pos_iff_ne_zero.1 h0), List.length_append, List.length_cons,
      List.length_nil]
    by_cases h10 : n < 10
    · have : n / 10 = 0 := Nat.div_eq_of_lt h10
      rw [this, decCharsAux_zero]
      have : Nat.log 10 n = 0 := Nat.log_eq_zero_iff.2 (Or.inl h10)
      simp [this]
    · push_neg at h10
      have hq0 : 0 < n / 10 := Nat.div_pos h10 (by norm_num)
      have hqlt : n / 10 < 10 ^ fuel := by
        rw [Nat.div_lt_iff_lt_mul (by norm_num : (0:ℕ) < 10)]
        calc n < 10 ^ (fuel + 1) := h
        _ = 10 ^ fuel * 10 := by ring
      have hlog : 0 < Nat.log 10 n := Nat.log_pos (by norm_num) h10
      rw [ih (n / 10) hq0 hqlt, Nat.log_div_base]
      omega

theorem decChars_length (n : Nat) (h : n < 10 ^ 64) :
    (decChars n).length = Nat.log 10 n + 1 := by
  rcases Nat.eq_zero_or_pos n with h0 | h0
  · subst h0; simp [decChars]
  · rw [decChars, if_neg (Nat.pos_iff_ne_zero.1 h0)]
    exact decCharsAux_length 64 n h0 h

theorem digitChar_ne_comma : ∀ m : Nat, m < 10 → Nat.digitChar m ≠ ',' := by decide

theorem comma_not_mem_decCharsAux (fuel : Nat) :
    ∀ n : Nat, ',' ∉ decCharsAux fuel n := by
  induction fuel with
  | zero => intro n; simp [decCharsAux]
  | succ fuel ih =>
    intro n
    rw [decCharsAux]
    by_cases h0 : n = 0
    · simp [h0]
    · rw [if_neg h0]
      intro hmem
      rcases List.mem_append.1 hmem with hmem | hmem
      · exact ih (n / 10) hmem
      · have := List.mem_singleton.1 hmem
        exact digitChar_ne_comma (n % 10) (Nat.mod_lt n (by norm_num)) this.symm

theorem comma_not_mem_decChars (n : Nat) : ',' ∉ decChars n := by
  rw [decChars]
  by_cases h0 : n = 0
  · simp [h0]
  · rw [if_neg h0]
    exact comma_not_mem_decCharsAux 64 n

theorem charsToNatAux_append (xs : List Char) :
    ∀ (acc : Nat) (c : Char),
      charsToNatAux (xs ++ [c]) acc = charsToNatAux xs acc * 10 + (c.toNat - '0'.toNat) := by
  induction xs with
  | nil => intro acc c; simp only [List.nil_append, charsToNatAux]
  | cons x rest ih =>
    intro acc c
    simp only [List.cons_append, charsToNatAux]
    exact ih _ c

theorem digitChar_toNat_sub : ∀ m : Nat, m < 10 → (Nat.digitChar m).toNat - '0'.toNat = m := by
  decide

theorem charsToNatAux_decCharsAux (fuel : Nat) :
    ∀ n acc : Nat, n < 10 ^ fuel →
      charsToNatAux (decCharsAux fuel n) acc = acc * 10 ^ (decCharsAux fuel n).length + n := by
  induction fuel with
  | zero =>
    intro n acc h
    interval_cases n
    simp [decCharsAux, charsToNatAux]
  | succ fuel ih =>
    intro n acc h
    rw [decCharsAux]
    by_cases h0 : n = 0
    · simp [h0, charsToNatAux]
    · rw [if_neg h0, charsToNatAux_append]
      have hqlt : n / 10 < 10 ^ fuel := by
        rw [Nat.div_lt_iff_lt_mul (by norm_num : (0:ℕ) < 10)]
        calc n < 10 ^ (fuel + 1) := h
        _ = 10 ^ fuel * 10 := by ring
      rw [ih (n / 10) acc hqlt, digitChar_toNat_sub (n % 10) (Nat.mod_lt n (by omega))]
      rw [List.length_append, List.length_cons, List.length_nil]
      have := Nat.div_add_mod n 10
      ring_nf
      omega

theorem charsToNat_decChars (n : Nat) (h : n < 10 ^ 64) : charsToNat (decChars n) = n := by
  rw [decChars]
  by_cases h0 : n = 0
  · simp [h0, charsToNat, charsToNatAux]
  · rw [if_neg h0, charsToNat, charsToNatAux_decCharsAux 64 n 0 h]
    simp

theorem takeGroups_flatten (k : Nat) :
    ∀ rest : List Char, rest.length ≤ 3 * k → (takeGroups k rest).flatten = rest := by
  induction k with
  | zero =>
    intro rest h
    have : rest = [] := List.eq_nil_of_length_eq_zero (by omega)
    simp [this, takeGroups]
  | succ k ih =>
    intro rest h
    simp only [takeGroups, List.flatten_cons]
    rw [ih (rest.drop 3) (by simp; omega), List.take_append_drop]

theorem chunksFromRight_flatten (s : List Char) : (chunksFromRight s).flatten = s := by
  simp only [chunksFromRight, List.flatten_cons]
  rw [takeGroups_flatten _ (s.drop (s.length - 3 * ((s.length - 1) / 3))) (by simp; omega),
    List.take_append_drop]

theorem stripCommas_joinComma :
    ∀ groups : List (List Char), ',' ∉ groups.flatten →
      stripCommas (joinComma groups) = groups.flatten := by
  intro groups
  induction groups with
  | nil => intro h; simp [joinComma, stripCommas]
  | cons g rest ih =>
    intro h
    cases rest with
    | nil =>
      simp only [joinComma, List.intersperse_single, List.flatten_cons, List.flatten_nil,
        List.append_nil] at h ⊢
      exact List.filter_eq_self.2 fun c hc => by
        simp only [ne_eq, decide_eq_true_eq]
        intro hcomma
        exact h (hcomma ▸ hc)
    | cons g2 rest2 =>
      simp only [List.flatten_cons, List.mem_append, not_or] at h
      obtain ⟨hg, hrest⟩ := h
      have hj := ih (by simpa using hrest)
      simp only [stripCommas, joinComma, List.intersperse_cons₂, List.flatten_cons,
        List.filter_append] at hj ⊢
      rw [hj, List.filter_eq_self.2 (fun c hc => by
        simp only [ne_eq, decide_eq_true_eq]
        exact fun hcomma => hg (hcomma ▸ hc))]
      simp

/-! `counterLoop` characterisation for the non-overflowing range. -/

theorem wrapPow1000_eq (j : Nat) (h : j ≤ 6) : wrapPow1000 j = 1000 ^ j :=
  Nat.mod_eq_of_lt
    (lt_of_le_of_lt (Nat.pow_le_pow_right (by norm_num) h) (by norm_num))

theorem wrapPow1000_ne_zero (j : Nat) (h : j ≤ 7) : wrapPow1000 j ≠ 0 := by
  interval_cases j <;> decide

theorem wrapPow1000_seven : wrapPow1000 7 = 3875820019684212736 := by decide

theorem counterLoop_from (n L : Nat) (hL6 : L ≤ 6) (hT : n < 3875820019684212736)
    (hupper : n < 1000 ^ (L + 1)) :
    ∀ fuel c, c ≤ L + 1 → L + 2 ≤ c + fuel →
      (∀ i, c ≤ i → i ≤ L → 1000 ^ i ≤ n) →
      counterLoop n c fuel = some (L + 1) := by
  intro fuel
  induction fuel with
  | zero => intro c h1 h2 _; omega
  | succ fuel ih =>
    intro c h1 h2 hlow
    rcases Nat.lt_or_ge c (L + 1) with hc | hc
    · have hd : wrapPow1000 c ≠ 0 := wrapPow1000_ne_zero c (by omega)
      have hpos : 0 < n / wrapPow1000 c := by
        rw [wrapPow1000_eq c (by omega)]
        exact Nat.div_pos (hlow c le_rfl (by omega)) (Nat.pos_pow_of_pos c (by norm_num))
      rw [counterLoop, if_neg hd, if_pos hpos]
      exact ih (c + 1) (by omega) (by omega) fun i hi1 hi2 => hlow i (by omega) hi2
    · have hceq : c = L + 1 := by omega
      subst hceq
      have hd : wrapPow1000 (L + 1) ≠ 0 := wrapPow1000_ne_zero (L + 1) (by omega)
      have hz : n / wrapPow1000 (L + 1) = 0 := by
        apply Nat.div_eq_of_lt
        rcases Nat.lt_or_ge L 6 with h6 | h6
        · rw [wrapPow1000_eq (L + 1) (by omega)]
          exact hupper
        · have : L = 6 := by omega
          subst this
          rw [wrapPow1000_seven]
          exact hT
      have hnpos : ¬ 0 < n / wrapPow1000 (L + 1) := by omega
      rw [counterLoop, if_neg hd, if_neg hnpos]

theorem counterLoop_eval (n L : Nat) (hL1 : 1 ≤ L) (hL6 : L ≤ 6)
    (hlow : 1000 ^ L ≤ n) (hupper : n < 1000 ^ (L + 1))
    (hT : n < 3875820019684212736) :
    counterLoop n 1 30 = some (L + 1) :=
  counterLoop_from n L hL6 hT hupper 30 1 (by omega) (by omega) fun i hi1 hi2 =>
    le_trans (Nat.pow_le_pow_right (by norm_num) hi2) hlow

theorem decChars_length_le_three (n : Nat) (h : n < 1000) : (decChars n).length ≤ 3 := by
  rcases Nat.eq_zero_or_pos n with h0 | h0
  · subst h0; simp [decChars]
  · rw [decChars_length n (lt_trans h (by norm_num))]
    have hlog : ¬ 3 ≤ Nat.log 10 n := by
      intro hle
      have := (Nat.pow_le_iff_le_log (by norm_num) (Nat.pos_iff_ne_zero.1 h0)).2 hle
      norm_num at this
      omega
    omega

theorem formatNumberChars_small (n : Nat) (h : n < 1000) :
    formatNumberChars n = some (decChars n) := by
  have hlen := decChars_length_le_three n h
  simp only [formatNumberChars]
  rw [if_neg (by omega)]

theorem joinComma_chunks_short (s : List Char) (h : s.length ≤ 3) :
    joinComma (chunksFromRight s) = s := by
  have hk : (s.length - 1) / 3 = 0 := by omega
  simp only [chunksFromRight, hk, Nat.mul_zero, Nat.sub_zero, takeGroups]
  simp [joinComma, List.take_of_length_le le_rfl]

theorem takeGroups_length (k : Nat) :
    ∀ rest : List Char, rest.length = 3 * k → ∀ g ∈ takeGroups k rest, g.length = 3 := by
  induction k with
  | zero => intro rest h g hg; simp [takeGroups] at hg
  | succ k ih =>
    intro rest h g hg
    rcases List.mem_cons.1 hg with hg | hg
    · subst hg
      simp only [List.length_take]
      omega
    · exact ih (rest.drop 3) (by simp; omega) g hg

/-- Sanity of the spec-side chunking: the leading group holds one to three
characters and every following group holds exactly three, so `joinComma`
places a `,` every three digits from the right. -/
theorem chunksFromRight_shape (s : List Char) (h : s ≠ []) :
    ∃ head gs, chunksFromRight s = head :: gs ∧ 1 ≤ head.length ∧ head.length ≤ 3 ∧
      ∀ g ∈ gs, g.length = 3 := by
  have hpos : 0 < s.length := List.length_pos.2 h
  refine ⟨s.take (s.length - 3 * ((s.length - 1) / 3)),
    takeGroups ((s.length - 1) / 3) (s.drop (s.length - 3 * ((s.length - 1) / 3))), rfl,
    ?_, ?_, ?_⟩
  · simp only [List.length_take]
    omega
  · simp only [List.length_take]
    omega
  · exact takeGroups_length _ _ (by simp; omega)

example : joinComma (chunksFromRight (decChars 1234567)) = "1,234,567".data := by decide
example : joinComma (chunksFromRight (decChars 42)) = "42".data := by decide

/-- Claim C8 counterexample: `10 ^ 19` is a valid 64-bit `usize`, yet the
thousands-grouping function does not return any grouped rendering for it — it
panics: the group count computed through `usize::pow(1000, c)` overflows
64 bits, and the subsequent head slice `number[0..len - counter*3]` is out of
range. -/
theorem format_number_overflow_counterexample :
    format_number 10000000000000000000 = none ∧
      (10000000000000000000 : Nat) < 2 ^ 64 := by
  exact ⟨by decide, by decide⟩

/-- Claim C8 (amended): for every `n` below `3875820019684212736`
(= `10 ^ 21 mod 2 ^ 64`, the first value at which the 64-bit overflow of
`usize::pow(1000, counter)` corrupts the group count), the thousands-grouping
function returns the decimal rendering of `n` with a `,` inserted every three
digits from the right; removing the commas from its output yields the plain
decimal rendering, which parses back to `n`; and for `n < 1000` the output is
the plain decimal rendering unchanged.  At and above that bound the function
panics instead of returning. -/
theorem format_number_grouped (n : Nat) (h : n < 3875820019684212736) :
    format_number n = some (String.mk (joinComma (chunksFromRight (decChars n)))) ∧
      stripCommas (joinComma (chunksFromRight (decChars n))) = decChars n ∧
      charsToNat (stripCommas (joinComma (chunksFromRight (decChars n)))) = n ∧
      (n < 1000 → format_number n = some (String.mk (decChars n))) := by
  have h64 : n < 10 ^ 64 := lt_trans h (by norm_num)
  have hmain : formatNumberChars n = some (joinComma (chunksFromRight (decChars n))) := by
    rcases Nat.lt_or_ge n 1000 with h1000 | h1000
    · rw [formatNumberChars_small n h1000, joinComma_chunks_short _ (decChars_length_le_three n h1000)]
    · have hn0 : n ≠ 0 := by omega
      have hL1 : 1 ≤ Nat.log 1000 n := Nat.log_pos (by norm_num) h1000
      have hlow : 1000 ^ Nat.log 1000 n ≤ n := Nat.pow_log_le_self 1000 hn0
      have hupper : n < 1000 ^ (Nat.log 1000 n + 1) := Nat.lt_pow_succ_log_self (by norm_num) n
      have hL6 : Nat.log 1000 n ≤ 6 := by
        by_contra hgt
        push_neg at hgt
        have h7 : (1000 : Nat) ^ 7 ≤ 1000 ^ Nat.log 1000 n :=
          Nat.pow_le_pow_right (by norm_num) hgt
        have := le_trans h7 hlow
        norm_num at this
        omega
      have hcounter := counterLoop_eval n (Nat.log 1000 n) hL1 hL6 hlow hupper h
      have hlen : (decChars n).length = Nat.log 10 n + 1 := decChars_length n h64
      have h3D : 3 * Nat.log 1000 n ≤ Nat.log 10 n := by
        apply (Nat.pow_le_iff_le_log (by norm_num) hn0).1
        calc (10 : Nat) ^ (3 * Nat.log 1000 n) = (10 ^ 3) ^ Nat.log 1000 n := by
              rw [← pow_mul]
        _ = 1000 ^ Nat.log 1000 n := by norm_num
        _ ≤ n := hlow
      have hD3 : Nat.log 10 n < 3 * Nat.log 1000 n + 3 := by
        by_contra hge
        push_neg at hge
        have h1 : (10 : Nat) ^ (3 * Nat.log 1000 n + 3) ≤ 10 ^ Nat.log 10 n :=
          Nat.pow_le_pow_right (by norm_num) hge
        have h2 : (10 : Nat) ^ Nat.log 10 n ≤ n := Nat.pow_log_le_self 10 hn0
        have h3 : n < (10 : Nat) ^ (3 * Nat.log 1000 n + 3) := by
          calc n < 1000 ^ (Nat.log 1000 n + 1) := hupper
          _ = (10 ^ 3) ^ (Nat.log 1000 n + 1) := by norm_num
          _ = 10 ^ (3 * (Nat.log 1000 n + 1)) := by rw [← pow_mul]
          _ = 10 ^ (3 * Nat.log 1000 n + 3) := by ring_nf
        omega
      have hk : ((decChars n).length - 1) / 3 = Nat.log 1000 n := by
        rw [hlen]
        omega
      have h3lt : 3 < (decChars n).length := by
        rw [hlen]
        omega
      have hnotlt : ¬ (decChars n).length < 3 * Nat.log 1000 n := by
        rw [hlen]
        omega
      simp only [formatNumberChars, if_pos h3lt, hcounter, chunksFromRight, hk,
        Nat.add_sub_cancel]
      rw [if_neg hnotlt]
  have hstrip : stripCommas (joinComma (chunksFromRight (decChars n))) = decChars n := by
    have hnc : ',' ∉ (chunksFromRight (decChars n)).flatten := by
      rw [chunksFromRight_flatten]
      exact comma_not_mem_decChars n
    have h2 := stripCommas_joinComma _ hnc
    rw [chunksFromRight_flatten] at h2
    exact h2
  refine ⟨?_, hstrip, ?_, ?_⟩
  · rw [format_number, hmain]
    rfl
  · rw [hstrip]
    exact charsToNat_decChars n h64
  · intro h1000
    rw [format_number, formatNumberChars_small n h1000]
    rfl

theorem format_number_grouped_witness :
    (1234567 : Nat) < 3875820019684212736 ∧
      format_number 1234567
        = some (String.mk (joinComma (chunksFromRight (decChars 1234567)))) :=
  ⟨by decide, (format_number_grouped 1234567 (by decide)).1⟩

/-! ### Claim C9 -/

/-- Claim C9: refuted — the thousands-grouping formatter is not total over its
documented input domain.  At the valid 64-bit input 4000000000000000000 the
computation of the group count overflows (`usize::pow(1000, 7)` exceeds
64 bits) and the function panics (overflow panic in a debug build; in a
release build the wrapped count makes the head slice
`number[0..len - counter*3]` out of range, which panics) instead of returning
a rendering. -/
theorem format_number_not_total :
    format_number 4000000000000000000 = none := by decide

end BraiinsBot
